import Mathlib

/-!
Verification development for the plotting module of the RTGLOBAL repository
(src/rtlive/plotting.py).

The module is a matplotlib-based renderer. We give a shallow embedding:
an axes object is a record of its x/y limits together with the ordered
list of drawing operations issued against it; each plotting helper of the
source becomes a pure Lean function that threads the axes state exactly in
the order the Python code mutates it.  Dates are day numbers (integers,
days since 1970-01-01; matplotlib converts a datetime to a numeric x
coordinate via convert_xunits, which we model as this day number).
Numeric values are rationals.
-/

namespace RTLive

/-- A single drawing operation issued against a matplotlib axes object.
Each constructor records the data of one draw call of the source:
axvline, ax.text, ax.plot, ax.bar, ax.scatter, pymc3.gp.util.plot_gp_dist,
fbprophet`s m.plot / m.plot_components rendering into an axes, ax.axhline. -/
inductive DrawOp where
  | vline (x : Int)
  | text (x : Int) (y : Rat) (s : String) (valign : String)
  | line (pts : List (Int × Rat)) (label : String)
  | bar (pts : List (Int × Rat)) (label : String)
  | scatter (pts : List (Int × Rat)) (label : String)
  | gpDist (xs : List Int) (samples : List (List Rat))
  | prophetPlot (rows : List Int)
  | hline (y : Rat)
  deriving DecidableEq, Repr

/-- A matplotlib axes: visible x limits, y limits, and the ordered list of
drawing operations already issued against it. -/
structure Axes where
  xlim : Rat × Rat
  ylim : Rat × Rat
  ops : List DrawOp
  deriving DecidableEq, Repr

/-- Issue one drawing operation on an axes (matplotlib mutates the axes;
we append to the operation list). -/
def Axes.push (ax : Axes) (op : DrawOp) : Axes :=
  { ax with ops := ax.ops ++ [op] }

/-- A fresh subplot as created by pyplot.subplots: matplotlib default data
limits are (0, 1) on both axes and nothing is drawn yet. -/
def freshAxes : Axes :=
  { xlim := (0, 1), ylim := (0, 1), ops := [] }

/-!
## textwrap.shorten

plot_vlines calls textwrap.shorten(label, width=20, placeholder="...").
The stdlib first normalizes whitespace: text.split() on the Python
whitespace set, rejoined with single spaces.  If the normalized text has
at most 20 characters it is returned verbatim.  Otherwise TextWrapper
(max_lines=1, break_long_words and break_on_hyphens at their defaults)
splits the text into chunks - runs of whitespace, em-dash runs (two or
more hyphens preceded by a word-or-punctuation character and followed by
a word character), and words, where a word chunk also ends right after a
hyphen whose three or four preceding characters are letter letter hyphen
(or letter hyphen letter hyphen) and which is followed by letter,
optional hyphen, letter: the hyphenation break points of wordsep_re.
One line is then filled greedily with chunks up to width 20; a chunk
longer than 20 characters is broken at the position after its last
hyphen inside the remaining space when that hyphen follows a non-hyphen
character, else at the remaining-space limit; finally trailing chunks
are dropped until the line ends in a non-whitespace chunk and, with the
3-character placeholder, fits in 20 characters, and "..." is appended;
when nothing remains, "..." alone is returned.  We embed this algorithm;
the regex character classes (letters, word characters) are modeled on
the ASCII range.  The embedding was checked against CPython shorten on
randomized and adversarial inputs, including hyphen and em-dash cases.
-/

/-- The Python str.split() whitespace set (code points with the Unicode
space property as used by Py_UNICODE_ISSPACE). -/
def pySplitSpace (c : Char) : Bool :=
  ([0x09, 0x0A, 0x0B, 0x0C, 0x0D, 0x1C, 0x1D, 0x1E, 0x1F, 0x20,
    0x85, 0xA0, 0x1680, 0x2000, 0x2001, 0x2002, 0x2003, 0x2004, 0x2005,
    0x2006, 0x2007, 0x2008, 0x2009, 0x200A, 0x2028, 0x2029, 0x202F,
    0x205F, 0x3000] : List Nat).contains c.toNat

/-- The TextWrapper whitespace class (tab, newline, vertical tab, form
feed, carriage return, space). -/
def pyWrapSpace (c : Char) : Bool :=
  ([0x09, 0x0A, 0x0B, 0x0C, 0x0D, 0x20] : List Nat).contains c.toNat

/-- The wordsep_re letter class [^\d\W] (word characters that are not
digits: letters and the underscore), ASCII scope. -/
def pyLetter (c : Char) : Bool :=
  c.isAlpha || c == '_'

/-- The regex word class \w (letters, digits, underscore), ASCII scope. -/
def pyWordChar (c : Char) : Bool :=
  c.isAlphanum || c == '_'

/-- The wordsep_re word_punct class: word characters and a few
punctuation marks (the last alternative is the apostrophe). -/
def pyWordPunct (c : Char) : Bool :=
  pyWordChar c || c == '!' || c == '"' || c == '&' || c == '.' ||
    c == ',' || c == '?' || c == Char.ofNat 39

/-- Accumulating splitter for Python str.split(): split on whitespace runs
and drop empty pieces.  acc holds the current word reversed. -/
def pyWordsAux : List Char → List Char → List String
  | [], acc => if acc.isEmpty then [] else [String.mk acc.reverse]
  | c :: rest, acc =>
    if pySplitSpace c then
      if acc.isEmpty then pyWordsAux rest []
      else String.mk acc.reverse :: pyWordsAux rest []
    else pyWordsAux rest (c :: acc)

/-- Python str.split() on a label: the whitespace-delimited words. -/
def pyWords (s : String) : List String :=
  pyWordsAux s.data []

/-- Join words with single spaces (Python " ".join). -/
def joinSp : List String → String
  | [] => ""
  | [w] => w
  | w :: rest => w ++ " " ++ joinSp rest

/-- Whether the text starts with a run of two or more hyphens followed by
a word character (the em-dash lookahead of wordsep_re). -/
def hyphenRunThenWord (cs : List Char) : Bool :=
  let sp := cs.span (fun d => d == '-')
  decide (2 ≤ sp.1.length) &&
    (match sp.2 with
     | d :: _ => pyWordChar d
     | [] => false)

/-- The standalone em-dash chunk alternative of wordsep_re: the previous
character is word_punct and an em-dash run followed by a word character
starts here.  behind holds the characters before the position, most
recent first. -/
def emDashSep (behind cs : List Char) : Bool :=
  (match behind with
   | b :: _ => pyWordPunct b
   | [] => false) && hyphenRunThenWord cs

/-- The hyphenation lookahead of wordsep_re: letter, optional hyphen,
letter. -/
def hyphenLookahead : List Char → Bool
  | a :: b :: rest =>
    pyLetter a &&
      (pyLetter b ||
        (b == '-' &&
          (match rest with
           | d :: _ => pyLetter d
           | [] => false)))
  | _ => false

/-- A word chunk ends here because of a hyphenation break: the position
follows a hyphen preceded by two letters (or by letter hyphen letter) and
the lookahead holds.  ctx holds the characters before the position, most
recent first. -/
def hyphenBreakEnd (ctx rest : List Char) : Bool :=
  ((match ctx with
    | '-' :: b1 :: b2 :: _ => pyLetter b1 && pyLetter b2
    | _ => false) ||
   (match ctx with
    | '-' :: b1 :: '-' :: b3 :: _ => pyLetter b1 && pyLetter b3
    | _ => false)) && hyphenLookahead rest

/-- A word chunk ends here because the text ends or whitespace follows. -/
def endOfWordEnd : List Char → Bool
  | [] => true
  | c :: _ => pyWrapSpace c

/-- A word chunk ends here because an em-dash run (followed by a word
character) starts and the previous character is word_punct. -/
def emDashEnd (ctx rest : List Char) : Bool :=
  (match ctx with
   | b :: _ => pyWordPunct b
   | [] => false) && hyphenRunThenWord rest

/-- Any of the three end conditions of the lazy word alternative. -/
def wordEnd (ctx rest : List Char) : Bool :=
  hyphenBreakEnd ctx rest || endOfWordEnd rest || emDashEnd ctx rest

/-- Lazily consume a word chunk: take at least one character, then stop
at the first position where an end condition holds.  Returns the chunk
characters and the remaining text. -/
def wordTakeAux : List Char → List Char → List Char × List Char
  | _, [] => ([], [])
  | ctx, c :: rest =>
    let ctx2 := c :: ctx
    if wordEnd ctx2 rest then ([c], rest)
    else
      let r := wordTakeAux ctx2 rest
      (c :: r.1, r.2)

/-- Split a text into wordsep_re chunks.  behind holds the characters
already consumed, most recent first; the fuel (at least the text length)
makes the recursion structural, each chunk consuming at least one
character. -/
def pyChunksAux : List Char → List Char → Nat → List String
  | _, _, 0 => []
  | behind, cs, fuel + 1 =>
    match cs with
    | [] => []
    | c :: rest =>
      if pyWrapSpace c then
        let sp := (c :: rest).span pyWrapSpace
        String.mk sp.1 :: pyChunksAux (sp.1.reverse ++ behind) sp.2 fuel
      else if emDashSep behind (c :: rest) then
        let sp := (c :: rest).span (fun d => d == '-')
        String.mk sp.1 :: pyChunksAux (sp.1.reverse ++ behind) sp.2 fuel
      else
        let r := wordTakeAux behind (c :: rest)
        String.mk r.1 :: pyChunksAux (r.1.reverse ++ behind) r.2 fuel

/-- The chunk list of a text. -/
def pyChunks (cs : List Char) : List String :=
  pyChunksAux [] cs cs.length

/-- Total character count of a chunk list. -/
def sumLen : List String → Nat
  | [] => 0
  | c :: rest => c.length + sumLen rest

/-- Greedy fill of the single line: take chunks while the running length
stays within width 20; returns the taken chunks and the rest. -/
def greedyAux (curLen : Nat) : List String → List String × List String
  | [] => ([], [])
  | c :: rest =>
    if curLen + c.length ≤ 20 then
      let r := greedyAux (curLen + c.length) rest
      (c :: r.1, r.2)
    else ([], c :: rest)

/-- Index of the last hyphen in the list (Python str.rfind). -/
def rfindHyphenAux (best : Option Nat) (i : Nat) : List Char → Option Nat
  | [] => best
  | c :: rest => rfindHyphenAux (if c == '-' then some i else best) (i + 1) rest

/-- TextWrapper._handle_long_word for a chunk longer than the width: break
after the last hyphen inside the remaining space if one follows a
non-hyphen character, else at the remaining-space limit, and keep that
piece on the line. -/
def handleLongWord (curLen : Nat) (c : String) : String :=
  let spaceLeft := 20 - curLen
  let e :=
    match rfindHyphenAux none 0 (c.data.take spaceLeft) with
    | some h =>
      if decide (0 < h) && (c.data.take h).any (fun d => d != '-') then h + 1
      else spaceLeft
    | none => spaceLeft
  String.mk (c.data.take e)

/-- A chunk consisting of whitespace only (chunk.strip() empty). -/
def isWsChunk (c : String) : Bool :=
  c.data.all pyWrapSpace

/-- The placeholder loop of _wrap_chunks (on the reversed line): drop
trailing chunks until the line ends in a non-whitespace chunk and still
fits width 20 together with the 3-character placeholder. -/
def popFitAux : List String → List String
  | [] => []
  | c :: rest =>
    if !(isWsChunk c) && decide (sumLen (c :: rest) + 3 ≤ 20) then c :: rest
    else popFitAux rest

/-- Concatenate a chunk list back into a string. -/
def concatChunks : List String → String
  | [] => ""
  | c :: rest => c ++ concatChunks rest

/-- The truncation branch of shorten on the chunk list of a normalized
text longer than 20 characters: greedy fill, long-word breaking,
placeholder fitting. -/
def truncateChunks (cs : List String) : String :=
  let g := greedyAux 0 cs
  let cur :=
    match g.2 with
    | c :: _ => if 20 < c.length then g.1 ++ [handleLongWord (sumLen g.1) c] else g.1
    | [] => g.1
  match popFitAux cur.reverse with
  | [] => "..."
  | kept => concatChunks kept.reverse ++ "..."

/-- textwrap.shorten(label, width=20, placeholder="..."). -/
def textwrap_shorten (label : String) : String :=
  let ws := pyWords label
  let s := joinSp ws
  if s.length ≤ 20 then s
  else truncateChunks (pyChunks s.data)

/-!
## plot_vlines

The source reads ymin, ymax, xmin, xmax once, then iterates the dict in
insertion order.  For a date inside the visible x range it shortens the
label, draws the vertical line, and only then branches on the alignment:
"top" and "bottom" compute the label y position and draw the text (the
string drawn is the shortened label with a newline appended); any other
alignment raises ValueError at that point — the vertical line of that date
is already drawn.  Dates outside the range are skipped without touching
the alignment.  We return the final axes state together with the raised
error message, if any (Python mutations persist past the exception).
-/

def plot_vlines_aux (ymin ymax xmin xmax : Rat) (alignment : String) :
    Axes → List (Int × String) → Axes × Option String
  | ax, [] => (ax, none)
  | ax, (x, label) :: rest =>
    if xmin ≤ (x : Rat) ∧ (x : Rat) ≤ xmax then
      let lab := textwrap_shorten label
      let ax1 := ax.push (DrawOp.vline x)
      if alignment = "top" then
        plot_vlines_aux ymin ymax xmin xmax alignment
          (ax1.push (DrawOp.text x (ymin + 98 / 100 * (ymax - ymin)) (lab ++ "\n") alignment))
          rest
      else if alignment = "bottom" then
        plot_vlines_aux ymin ymax xmin xmax alignment
          (ax1.push (DrawOp.text x (ymin + 2 / 100 * (ymax - ymin)) (lab ++ "\n") alignment))
          rest
      else (ax1, some ("Unsupported alignment: " ++ alignment))
    else plot_vlines_aux ymin ymax xmin xmax alignment ax rest

/-- plot_vlines(ax, vlines, alignment) of src/rtlive/plotting.py. -/
def plot_vlines (ax : Axes) (vlines : List (Int × String)) (alignment : String) :
    Axes × Option String :=
  plot_vlines_aux ax.ylim.1 ax.ylim.2 ax.xlim.1 ax.xlim.2 alignment ax vlines

/-- Whether the x coordinate of a date falls inside the visible x range
(the test `xmin <= ax.xaxis.convert_xunits(x) <= xmax` of the source). -/
def inXRange (xmin xmax : Rat) (x : Int) : Bool :=
  decide (xmin ≤ (x : Rat) ∧ (x : Rat) ≤ xmax)

/-- The y coordinate at which plot_vlines places a label for a valid
alignment: 98 percent of the y range for "top", 2 percent for "bottom". -/
def labelY (ymin ymax : Rat) (alignment : String) : Rat :=
  if alignment = "top" then ymin + 98 / 100 * (ymax - ymin)
  else ymin + 2 / 100 * (ymax - ymin)

/-- The drawing operations plot_vlines issues for a valid alignment: for
each date inside the visible x range, in order, a vertical line followed by
the shortened label text (with trailing newline) at the alignment y. -/
def vlineOps (ymin ymax xmin xmax : Rat) (alignment : String)
    (vl : List (Int × String)) : List DrawOp :=
  (vl.filter (fun p => inXRange xmin xmax p.1)).flatMap
    (fun p => [DrawOp.vline p.1,
               DrawOp.text p.1 (labelY ymin ymax alignment)
                 (textwrap_shorten p.2 ++ "\n") alignment])

theorem plot_vlines_aux_valid (ymin ymax xmin xmax : Rat) (alignment : String)
    (hal : alignment = "top" ∨ alignment = "bottom") :
    ∀ (vl : List (Int × String)) (ax : Axes),
      plot_vlines_aux ymin ymax xmin xmax alignment ax vl =
        ({ ax with ops := ax.ops ++ vlineOps ymin ymax xmin xmax alignment vl }, none) := by
  intro vl
  induction vl with
  | nil =>
    intro ax
    simp [plot_vlines_aux, vlineOps]
  | cons p rest ih =>
    intro ax
    obtain ⟨x, label⟩ := p
    by_cases hx : xmin ≤ (x : Rat) ∧ (x : Rat) ≤ xmax
    · have hxd : inXRange xmin xmax x = true := decide_eq_true hx
      rcases hal with h | h
      · subst h
        rw [plot_vlines_aux, if_pos hx, if_pos rfl, ih]
        simp only [vlineOps, List.filter_cons, hxd, if_true, List.flatMap_cons,
          Axes.push, labelY, if_pos rfl]
        simp [List.append_assoc]
      · subst h
        rw [plot_vlines_aux, if_pos hx]
        rw [if_neg (by decide), if_pos rfl, ih]
        simp only [vlineOps, List.filter_cons, hxd, if_true, List.flatMap_cons,
          Axes.push, labelY]
        rw [if_neg (by decide)]
        simp [List.append_assoc]
    · have hxd : inXRange xmin xmax x = false := decide_eq_false hx
      rw [plot_vlines_aux, if_neg hx, ih]
      simp only [vlineOps, List.filter_cons, hxd]
      simp

theorem plot_vlines_aux_invalid (ymin ymax xmin xmax : Rat) (alignment : String)
    (h1 : alignment ≠ "top") (h2 : alignment ≠ "bottom") :
    ∀ (vl : List (Int × String)) (ax : Axes),
      plot_vlines_aux ymin ymax xmin xmax alignment ax vl =
        match vl.find? (fun p => inXRange xmin xmax p.1) with
        | none => (ax, none)
        | some p => (ax.push (DrawOp.vline p.1),
                     some ("Unsupported alignment: " ++ alignment)) := by
  intro vl
  induction vl with
  | nil =>
    intro ax
    simp [plot_vlines_aux]
  | cons p rest ih =>
    intro ax
    obtain ⟨x, label⟩ := p
    by_cases hx : xmin ≤ (x : Rat) ∧ (x : Rat) ≤ xmax
    · rw [plot_vlines_aux, if_pos hx, if_neg h1, if_neg h2]
      rw [List.find?_cons_of_pos _ (by simpa [inXRange] using hx)]
    · rw [plot_vlines_aux, if_neg hx, ih]
      rw [List.find?_cons_of_neg _ (by simpa [inXRange] using hx)]

/-- Projection picking the x coordinate of a vertical-line operation. -/
def vlineX : DrawOp → Option Int
  | DrawOp.vline x => some x
  | _ => none

/-- Projection picking the string of a text operation. -/
def textS : DrawOp → Option String
  | DrawOp.text _ _ s _ => some s
  | _ => none

theorem flatMap_pair_filterMap_vlineX (f : Int × String → DrawOp)
    (hf : ∀ p, vlineX (f p) = none) :
    ∀ l : List (Int × String),
      (l.flatMap (fun p => [DrawOp.vline p.1, f p])).filterMap vlineX = l.map Prod.fst := by
  intro l
  induction l with
  | nil => simp
  | cons p rest ih =>
    rw [List.flatMap_cons, List.filterMap_append, ih]
    rw [show List.filterMap vlineX [DrawOp.vline p.1, f p] = [p.1] by
      rw [List.filterMap_cons, List.filterMap_cons, hf p]
      rfl]
    rfl

theorem flatMap_pair_filterMap_textS (g : Int × String → Rat) (va : String) :
    ∀ l : List (Int × String),
      (l.flatMap (fun p => [DrawOp.vline p.1,
          DrawOp.text p.1 (g p) (textwrap_shorten p.2 ++ "\n") va])).filterMap textS =
        l.map (fun p => textwrap_shorten p.2 ++ "\n") := by
  intro l
  induction l with
  | nil => simp
  | cons p rest ih =>
    simp [List.flatMap_cons, List.filterMap_append, ih, textS, vlineX]

theorem vlineOps_filterMap_vlineX (ymin ymax xmin xmax : Rat) (alignment : String)
    (vl : List (Int × String)) :
    (vlineOps ymin ymax xmin xmax alignment vl).filterMap vlineX =
      (vl.filter (fun p => inXRange xmin xmax p.1)).map Prod.fst := by
  rw [vlineOps]
  exact flatMap_pair_filterMap_vlineX
    (fun p => DrawOp.text p.1 (labelY ymin ymax alignment)
      (textwrap_shorten p.2 ++ "\n") alignment) (fun p => rfl) _

theorem vlineOps_filterMap_textS (ymin ymax xmin xmax : Rat) (alignment : String)
    (vl : List (Int × String)) :
    (vlineOps ymin ymax xmin xmax alignment vl).filterMap textS =
      (vl.filter (fun p => inXRange xmin xmax p.1)).map
        (fun p => textwrap_shorten p.2 ++ "\n") := by
  rw [vlineOps]
  exact flatMap_pair_filterMap_textS
    (fun _ => labelY ymin ymax alignment) alignment _

theorem mem_vlineOps_shape (ymin ymax xmin xmax : Rat) (alignment : String)
    (vl : List (Int × String)) (op : DrawOp)
    (h : op ∈ vlineOps ymin ymax xmin xmax alignment vl) :
    (∃ x, op = DrawOp.vline x) ∨ (∃ x y s v, op = DrawOp.text x y s v) := by
  simp only [vlineOps, List.mem_flatMap, List.mem_cons, List.mem_singleton,
    List.not_mem_nil, or_false] at h
  obtain ⟨p, -, hp⟩ := h
  rcases hp with h | h
  · exact Or.inl ⟨p.1, h⟩
  · exact Or.inr ⟨p.1, _, _, _, h⟩

/-- If every date of the mapping is outside the visible x range, the loop
body never runs: nothing is drawn and no exception is raised, no matter
what the alignment argument is. -/
theorem plot_vlines_aux_all_outside (ymin ymax xmin xmax : Rat) (alignment : String) :
    ∀ (vl : List (Int × String)) (ax : Axes),
      (∀ p ∈ vl, inXRange xmin xmax p.1 = false) →
      plot_vlines_aux ymin ymax xmin xmax alignment ax vl = (ax, none) := by
  intro vl
  induction vl with
  | nil => intro ax _; simp [plot_vlines_aux]
  | cons p rest ih =>
    intro ax hout
    obtain ⟨x, label⟩ := p
    have hx : ¬(xmin ≤ (x : Rat) ∧ (x : Rat) ≤ xmax) := by
      have := hout (x, label) (List.mem_cons_self _ _)
      simpa [inXRange] using this
    rw [plot_vlines_aux, if_neg hx]
    exact ih ax (fun q hq => hout q (List.mem_cons_of_mem _ hq))

theorem find?_eq_of_prefix_false {α : Type} (f : α → Bool) :
    ∀ (l1 : List α), (∀ p ∈ l1, f p = false) →
      ∀ l2 : List α, (l1 ++ l2).find? f = l2.find? f := by
  intro l1
  induction l1 with
  | nil => intro _ l2; simp
  | cons a t ih =>
    intro h l2
    rw [List.cons_append, List.find?_cons_of_neg _ (by simp [h a (List.mem_cons_self _ _)])]
    exact ih (fun p hp => h p (List.mem_cons_of_mem _ hp)) l2

/-!
## Facts about textwrap_shorten
-/

/-- Fidelity checks of the embedding against CPython
textwrap.shorten(label, width=20, placeholder="..."): word-boundary
truncation, hyphenation break points (also inside an overlong chunk),
and whitespace-chunk dropping, each equal to the stdlib output. -/
theorem textwrap_shorten_checks :
    textwrap_shorten "hello world this is long" = "hello world this..." ∧
    textwrap_shorten "abcdefgh-ijklmnopqr stuv" = "abcdefgh-..." ∧
    textwrap_shorten "state-of-the-art-system extra words" = "state-of-the-art-..." ∧
    textwrap_shorten "aa-bb-cc-dd-ee-ff-gg-hh" = "aa-bb-cc-dd-ee-..." ∧
    textwrap_shorten "ab1-ccccccccccccccccccccccccc" = "ab1-..." ∧
    textwrap_shorten "a ---------------------- b" = "a..." := by
  refine ⟨by decide, by decide, by decide, by decide, by decide, by decide⟩

/-- A concrete panel: visible x range [0, 10], y range [0, 10], nothing
drawn yet. -/
def ax0 : Axes := { xlim := (0, 10), ylim := (0, 10), ops := [] }

/-!
## Claims about plot_vlines
-/

/-- C1, counterexample.  On a panel with visible x range [0, 10], calling
plot_vlines with the single in-range date 5 and the invalid alignment
"left" does raise the invalid-argument error, but the vertical marker for
that date has already been drawn when the error is raised: the final ops
list is not empty, contradicting the claim that no drawing side effect
occurs before the error. -/
theorem c1_counterexample :
    (plot_vlines ax0 [((5 : Int), "event")] "left").2 =
      some ("Unsupported alignment: " ++ "left") ∧
    (plot_vlines ax0 [((5 : Int), "event")] "left").1.ops = [DrawOp.vline 5] ∧
    [DrawOp.vline 5] ≠ ([] : List DrawOp) := by
  rw [plot_vlines, plot_vlines_aux_invalid _ _ _ _ "left" (by decide) (by decide)]
  rw [List.find?_cons_of_pos _ (by decide)]
  refine ⟨rfl, rfl, by decide⟩

/-- C1, amended.  With an alignment outside top and bottom, plot_vlines
raises the invalid-argument ValueError if and only if some date of the
mapping lies inside the visible x range; the error occurs while processing
the first such date, after its vertical line has been drawn (so exactly
one marker is drawn and no label text); when no date is in range the call
returns normally having drawn nothing. -/
theorem c1_amended_invalid_alignment (ax : Axes) (vl : List (Int × String))
    (alignment : String) (h1 : alignment ≠ "top") (h2 : alignment ≠ "bottom") :
    ((∀ p ∈ vl, inXRange ax.xlim.1 ax.xlim.2 p.1 = false) →
      plot_vlines ax vl alignment = (ax, none)) ∧
    (∀ (x : Int) (lab : String) (l1 l2 : List (Int × String)),
      vl = l1 ++ (x, lab) :: l2 →
      (∀ p ∈ l1, inXRange ax.xlim.1 ax.xlim.2 p.1 = false) →
      inXRange ax.xlim.1 ax.xlim.2 x = true →
      plot_vlines ax vl alignment =
        (ax.push (DrawOp.vline x), some ("Unsupported alignment: " ++ alignment))) := by
  constructor
  · intro hout
    exact plot_vlines_aux_all_outside _ _ _ _ alignment vl ax hout
  · intro x lab l1 l2 hvl hpre hx
    rw [plot_vlines, plot_vlines_aux_invalid _ _ _ _ alignment h1 h2, hvl]
    rw [find?_eq_of_prefix_false _ l1 hpre]
    rw [List.find?_cons_of_pos _ (by simpa using hx)]

/-- C1 witness: the amended statement evaluated on the concrete panel. -/
theorem c1_amended_witness :
    plot_vlines ax0 [((5 : Int), "event")] "left" =
      (ax0.push (DrawOp.vline 5), some ("Unsupported alignment: " ++ "left")) ∧
    plot_vlines ax0 [((20 : Int), "event")] "left" = (ax0, none) :=
  ⟨(c1_amended_invalid_alignment ax0 [((5 : Int), "event")] "left" (by decide)
      (by decide)).2 5 "event" [] [] rfl (by decide) (by decide),
   (c1_amended_invalid_alignment ax0 [((20 : Int), "event")] "left" (by decide)
      (by decide)).1 (by decide)⟩

/-- C3: dates outside the visible x range are silently skipped.  If every
date lies strictly outside the range, nothing at all is drawn and no
exception occurs, whatever the alignment; and for a valid alignment the
call succeeds, the operations issued are exactly those of vlineOps, and in
particular the vertical markers drawn are exactly the in-range dates of
the mapping, in order. -/
theorem c3_range_filtering (ax : Axes) (vl : List (Int × String)) (alignment : String) :
    ((∀ p ∈ vl, inXRange ax.xlim.1 ax.xlim.2 p.1 = false) →
      plot_vlines ax vl alignment = (ax, none)) ∧
    (alignment = "top" ∨ alignment = "bottom" →
      (plot_vlines ax vl alignment).2 = none ∧
      (plot_vlines ax vl alignment).1.ops =
        ax.ops ++ vlineOps ax.ylim.1 ax.ylim.2 ax.xlim.1 ax.xlim.2 alignment vl ∧
      (plot_vlines ax vl alignment).1.ops.filterMap vlineX =
        ax.ops.filterMap vlineX ++
          (vl.filter (fun p => inXRange ax.xlim.1 ax.xlim.2 p.1)).map Prod.fst) := by
  constructor
  · intro hout
    exact plot_vlines_aux_all_outside _ _ _ _ alignment vl ax hout
  · intro hal
    rw [plot_vlines, plot_vlines_aux_valid _ _ _ _ alignment hal]
    refine ⟨rfl, rfl, ?_⟩
    simp only [List.filterMap_append]
    rw [vlineOps, flatMap_pair_filterMap_vlineX
      (fun p => DrawOp.text p.1 (labelY ax.ylim.1 ax.ylim.2 alignment)
        (textwrap_shorten p.2 ++ "\n") alignment) (fun p => rfl)]

/-- C3 witness: the scenario of the spec, with day numbers scaled into the
concrete panel: dates 5 ("lockdown", inside [0, 10]) and 20 ("holiday",
outside) give exactly one marker at 5; and a mapping whose only date is
outside the range draws nothing even for an invalid alignment. -/
theorem c3_witness :
    ((plot_vlines ax0 [((5 : Int), "lockdown"), ((20 : Int), "holiday")] "bottom").2 = none ∧
     (plot_vlines ax0 [((5 : Int), "lockdown"), ((20 : Int), "holiday")] "bottom").1.ops =
       ax0.ops ++ vlineOps ax0.ylim.1 ax0.ylim.2 ax0.xlim.1 ax0.xlim.2 "bottom"
         [((5 : Int), "lockdown"), ((20 : Int), "holiday")] ∧
     (plot_vlines ax0 [((5 : Int), "lockdown"), ((20 : Int), "holiday")] "bottom").1.ops.filterMap
         vlineX =
       ax0.ops.filterMap vlineX ++
         ([((5 : Int), "lockdown"), ((20 : Int), "holiday")].filter
           (fun p => inXRange ax0.xlim.1 ax0.xlim.2 p.1)).map Prod.fst) ∧
    plot_vlines ax0 [((20 : Int), "holiday")] "left" = (ax0, none) :=
  ⟨(c3_range_filtering ax0 [((5 : Int), "lockdown"), ((20 : Int), "holiday")] "bottom").2
      (Or.inr rfl),
   (c3_range_filtering ax0 [((20 : Int), "holiday")] "left").1 (by decide)⟩

/-- C8: for a panel with ymin < ymax and an in-range date, the label text
is placed at ymin + 0.98 (ymax - ymin) for alignment "top" and at
ymin + 0.02 (ymax - ymin) for alignment "bottom", and in both cases this
y position lies inside the y extent of the panel. -/
theorem c8_label_placement (ax : Axes) (vl : List (Int × String)) (alignment : String)
    (x : Int) (lab : String) (hmem : (x, lab) ∈ vl)
    (hal : alignment = "top" ∨ alignment = "bottom")
    (hy : ax.ylim.1 < ax.ylim.2)
    (hx : inXRange ax.xlim.1 ax.xlim.2 x = true) :
    DrawOp.text x (labelY ax.ylim.1 ax.ylim.2 alignment) (textwrap_shorten lab ++ "\n")
        alignment ∈ (plot_vlines ax vl alignment).1.ops ∧
    ax.ylim.1 ≤ labelY ax.ylim.1 ax.ylim.2 alignment ∧
    labelY ax.ylim.1 ax.ylim.2 alignment ≤ ax.ylim.2 ∧
    (alignment = "top" →
      labelY ax.ylim.1 ax.ylim.2 alignment =
        ax.ylim.1 + 98 / 100 * (ax.ylim.2 - ax.ylim.1)) ∧
    (alignment = "bottom" →
      labelY ax.ylim.1 ax.ylim.2 alignment =
        ax.ylim.1 + 2 / 100 * (ax.ylim.2 - ax.ylim.1)) := by
  have hmem2 : DrawOp.text x (labelY ax.ylim.1 ax.ylim.2 alignment)
      (textwrap_shorten lab ++ "\n") alignment ∈ (plot_vlines ax vl alignment).1.ops := by
    rw [plot_vlines, plot_vlines_aux_valid _ _ _ _ alignment hal]
    apply List.mem_append_right
    simp only [vlineOps, List.mem_flatMap]
    refine ⟨(x, lab), List.mem_filter.2 ⟨hmem, hx⟩, ?_⟩
    simp
  have hd : (0 : Rat) ≤ ax.ylim.2 - ax.ylim.1 := by linarith
  rcases hal with h | h
  · subst h
    have hl : labelY ax.ylim.1 ax.ylim.2 "top" =
        ax.ylim.1 + 98 / 100 * (ax.ylim.2 - ax.ylim.1) := by
      rw [labelY, if_pos rfl]
    refine ⟨hmem2, ?_, ?_, fun _ => hl, fun hc => absurd hc (by decide)⟩
    · rw [hl]; nlinarith
    · rw [hl]; nlinarith
  · subst h
    have hl : labelY ax.ylim.1 ax.ylim.2 "bottom" =
        ax.ylim.1 + 2 / 100 * (ax.ylim.2 - ax.ylim.1) := by
      rw [labelY, if_neg (by decide)]
    refine ⟨hmem2, ?_, ?_, fun hc => absurd hc (by decide), fun _ => hl⟩
    · rw [hl]; nlinarith
    · rw [hl]; nlinarith

/-- C8 witness: the placement statement evaluated on the concrete panel
with alignment "top" and the in-range date 5. -/
theorem c8_witness :
    DrawOp.text 5 (labelY ax0.ylim.1 ax0.ylim.2 "top") (textwrap_shorten "ev" ++ "\n")
        "top" ∈ (plot_vlines ax0 [((5 : Int), "ev")] "top").1.ops ∧
    ax0.ylim.1 ≤ labelY ax0.ylim.1 ax0.ylim.2 "top" ∧
    labelY ax0.ylim.1 ax0.ylim.2 "top" ≤ ax0.ylim.2 ∧
    ("top" = "top" →
      labelY ax0.ylim.1 ax0.ylim.2 "top" =
        ax0.ylim.1 + 98 / 100 * (ax0.ylim.2 - ax0.ylim.1)) ∧
    ("top" = "bottom" →
      labelY ax0.ylim.1 ax0.ylim.2 "top" =
        ax0.ylim.1 + 2 / 100 * (ax0.ylim.2 - ax0.ylim.1)) :=
  c8_label_placement ax0 [((5 : Int), "ev")] "top" 5 "ev" (by decide) (Or.inl rfl)
    (by decide) (by decide)

/-- C10: when the alignment is invalid but the mapping is empty or every
date lies outside the visible x range, plot_vlines returns normally with
nothing drawn and no error: the alignment is only validated once a date
falls inside the range. -/
theorem c10_invalid_alignment_unreached (ax : Axes) (vl : List (Int × String))
    (alignment : String) (_h1 : alignment ≠ "top") (_h2 : alignment ≠ "bottom")
    (hout : ∀ p ∈ vl, inXRange ax.xlim.1 ax.xlim.2 p.1 = false) :
    plot_vlines ax vl alignment = (ax, none) :=
  plot_vlines_aux_all_outside ax.ylim.1 ax.ylim.2 ax.xlim.1 ax.xlim.2 alignment vl ax hout

/-- C10 witness: evaluated on the empty mapping and on a mapping whose only
date is outside the range, both with an invalid alignment. -/
theorem c10_witness :
    plot_vlines ax0 [] "diagonal" = (ax0, none) ∧
    plot_vlines ax0 [((20 : Int), "x")] "diagonal" = (ax0, none) :=
  ⟨c10_invalid_alignment_unreached ax0 [] "diagonal" (by decide) (by decide) (by decide),
   c10_invalid_alignment_unreached ax0 [((20 : Int), "x")] "diagonal" (by decide) (by decide)
     (by decide)⟩

/-!
## plot_testcount_forecast and plot_testcount_components

The Prophet model is an external collaborator; the only parts the plotting
code touches are its date-indexed training table m.history (whose first
row date is read as m.history.set_index(ds).index[0]) and its rendering
helpers m.plot / m.plot_components, which we record as a prophetPlot
operation carrying the dates of the forecast rows passed to them.
The constant 18322 encodes pandas.to_datetime(2020-03-01) as days since
1970-01-01.  An empty history makes index[0] raise IndexError, modelled as
returning none.  ax.legend itself draws nothing new; the artists built
inline for its handles (an empty scatter, an empty line, and the result
line) are recorded in evaluation order.  Axis captions (set_ylabel,
set_xlabel) are not modelled.
-/

/-- The slice of an fbprophet Prophet model read by the plotting code:
its date-indexed training rows (date, y). -/
structure Prophet where
  history : List (Int × Rat)
  deriving DecidableEq, Repr

/-- pandas.to_datetime(2020-03-01) as a day number. -/
def floor_date : Int := 18322

/-- plot_testcount_forecast(result, m, forecast, considered_holidays, ax)
of src/rtlive/plotting.py; forecast is its table's ds column.  The result
pairs the final axes with the propagated error, if any. -/
def plot_testcount_forecast (result : List (Int × Rat)) (m : Prophet)
    (forecast : List Int) (considered_holidays : List (Int × String))
    (ax : Axes) : Option (Axes × Option String) :=
  match m.history.head? with
  | none => none
  | some h0 =>
    let ax := ax.push (DrawOp.prophetPlot (forecast.filter (fun d => decide (h0.1 ≤ d))))
    let ax := { ax with ylim := (0, ax.ylim.2) }
    let ax := { ax with xlim := ((floor_date : Rat), ax.xlim.2) }
    match plot_vlines ax considered_holidays "bottom" with
    | (ax1, some e) => some (ax1, some e)
    | (ax1, none) =>
      let ax1 := ax1.push (DrawOp.scatter [] "training data")
      let ax1 := ax1.push (DrawOp.line [] "prediction")
      let ax1 := ax1.push (DrawOp.line result "result")
      some (ax1, none)

/-- The dict comprehension of the source blanking every label while
keeping every date, in order. -/
def blank_labels (vl : List (Int × String)) : List (Int × String) :=
  vl.map (fun kv => (kv.1, ""))

/-- plot_testcount_components(m, forecast, considered_holidays) of
src/rtlive/plotting.py.  The two component panels created by
m.plot_components are passed in as ax0 and ax1 (their initial state is
whatever the external library produced); the function returns their final
states with the propagated error, if any. -/
def plot_testcount_components (m : Prophet) (forecast : List Int)
    (considered_holidays : List (Int × String)) (ax0 ax1 : Axes) :
    Option ((Axes × Axes) × Option String) :=
  match m.history.head? with
  | none => none
  | some h0 =>
    let ax0 := ax0.push (DrawOp.prophetPlot (forecast.filter (fun d => decide (h0.1 ≤ d))))
    let ax1 := ax1.push (DrawOp.prophetPlot (forecast.filter (fun d => decide (h0.1 ≤ d))))
    let ax0 := { ax0 with ylim := (0, ax0.ylim.2) }
    let ax1 := { ax1 with ylim := (-1, ax1.ylim.2) }
    match plot_vlines ax0 considered_holidays "bottom" with
    | (a0, some e) => some ((a0, ax1), some e)
    | (a0, none) =>
      match plot_vlines ax1 (blank_labels considered_holidays) "bottom" with
      | (a1, some e) => some ((a0, a1), some e)
      | (a1, none) =>
        let a0 := { a0 with xlim := ((floor_date : Rat), a0.xlim.2) }
        let a1 := { a1 with xlim := ((floor_date : Rat), a1.xlim.2) }
        some ((a0, a1), none)

/-!
## plot_density_curves

The InferenceData object is read-only input.  Posterior variables are kept
as sample matrices: one row per flattened (chain, draw) sample, one column
per date, exactly the layout of stack(sample=(chain, draw)).values.T in
the source; constant_data series are date-indexed lists.  The scale
factor comes from the external collaborator model.get_scale_factor.
-/

/-- The slice of the arviz InferenceData read by plot_density_curves. -/
structure IData where
  dates : List Int
  infections : List (List Rat)
  test_adjusted_positive : List (List Rat)
  r_t : List (List Rat)
  observed_positive : List (Int × Rat)
  tests : List (Int × Rat)
  scale_factor_val : Rat
  deriving DecidableEq, Repr

/-- Modelled from the spec: model.get_scale_factor is an external
collaborator whose computation is out of scope - an opaque numeric
transform converting relative posterior quantities to absolute counts
(the spec allows a scalar or per-date multiplier; we model the scalar
case, carried with the inference data). -/
def get_scale_factor (idata : IData) : Rat :=
  idata.scale_factor_val

/-- The values of a sample matrix at one date (one entry per flattened
(chain, draw) sample). -/
def sample_column (m : List (List Rat)) (t : Nat) : List Rat :=
  m.map (fun row => row.getD t 0)

/-- (r_t > 1).mean(dim=(chain, draw)) at one date: the mean of the
indicator over all samples, i.e. the fraction of samples exceeding 1. -/
def prob_above_one (m : List (List Rat)) (t : Nat) : Rat :=
  (((sample_column m t).countP (fun v => decide (1 < v)) : Nat) : Rat) /
    ((m.length : Nat) : Rat)

/-- The probability series plotted in the probability panel: one fraction
per date. -/
def prob_series (m : List (List Rat)) (n : Nat) : List Rat :=
  (List.range n).map (prob_above_one m)

/-- Python truthiness of an optional dict argument: None and the empty
dict are both falsy (the source guards plot_vlines with "if vlines:"). -/
def truthy {α : Type} : Option (List α) → Bool
  | none => false
  | some l => !l.isEmpty

/-- The four panels of the trend dashboard. -/
structure FourAxes where
  curves : Axes
  testcounts : Axes
  probability : Axes
  rt : Axes
  deriving DecidableEq, Repr

/-- Result of plot_density_curves: the four panels, the propagated error
(if any), and the post-call state of every caller-supplied argument (the
source only reads them, so these echo the mutation-free semantics). -/
structure DCResult where
  axs : FourAxes
  err : Option String
  idata_out : IData
  vlines_out : Option (List (Int × String))
  actual_out : Option (List (Int × Rat))
  deriving DecidableEq, Repr

/-- plot_density_curves(idata, vlines, actual_tests, fig, axs) of
src/rtlive/plotting.py.  The four axes are passed in (when the caller
passes none, the source creates them; freshAxes models that).  Legend
composition and axis captions are not modelled; drawing operations are
recorded in source order. -/
def plot_density_curves (idata : IData) (vlines : Option (List (Int × String)))
    (actual_tests : Option (List (Int × Rat))) (axs : FourAxes) : DCResult :=
  let sf := get_scale_factor idata
  let axc := axs.curves
  let axc := axc.push (DrawOp.gpDist (idata.dates.drop 3)
    ((idata.infections.map (fun row => row.map (fun v => v * sf))).map
      (fun row => row.drop 3)))
  let axc := axc.push (DrawOp.gpDist (idata.dates.drop 3)
    ((idata.test_adjusted_positive.map (fun row => row.map (fun v => v * sf))).map
      (fun row => row.drop 3)))
  let axc := axc.push (DrawOp.bar idata.observed_positive "positive tests")
  match (if truthy vlines then plot_vlines axc (vlines.getD []) "bottom"
         else (axc, none)) with
  | (axc1, some e) =>
    { axs := { axs with curves := axc1 }, err := some e, idata_out := idata,
      vlines_out := vlines, actual_out := actual_tests }
  | (axc1, none) =>
    let axt := axs.testcounts
    let axt := axt.push (DrawOp.line idata.tests "modeled")
    let axt := match actual_tests with
      | some a => axt.push (DrawOp.bar a "actual")
      | none => axt
    match (if truthy vlines then plot_vlines axt (blank_labels (vlines.getD [])) "bottom"
           else (axt, none)) with
    | (axt1, some e) =>
      { axs := { axs with curves := axc1, testcounts := axt1 }, err := some e,
        idata_out := idata, vlines_out := vlines, actual_out := actual_tests }
    | (axt1, none) =>
      let axp := axs.probability
      let axp := axp.push (DrawOp.line
        (idata.dates.zip (prob_series idata.r_t idata.dates.length)) "")
      let axp := { axp with ylim := (0, 1) }
      let axr := axs.rt
      let axr := axr.push (DrawOp.gpDist idata.dates idata.r_t)
      let axr := axr.push (DrawOp.hline 1)
      let axr := { axr with ylim := (0, 5 / 2) }
      { axs := { curves := axc1, testcounts := axt1, probability := axp, rt := axr },
        err := none, idata_out := idata, vlines_out := vlines,
        actual_out := actual_tests }

/-- Characterization of plot_vlines for a valid alignment, packaged at the
level of the wrapper. -/
theorem plot_vlines_valid (ax : Axes) (vl : List (Int × String)) (alignment : String)
    (hal : alignment = "top" ∨ alignment = "bottom") :
    plot_vlines ax vl alignment =
      ({ ax with ops := ax.ops ++
          vlineOps ax.ylim.1 ax.ylim.2 ax.xlim.1 ax.xlim.2 alignment vl }, none) := by
  rw [plot_vlines, plot_vlines_aux_valid _ _ _ _ alignment hal]

theorem textwrap_shorten_empty : textwrap_shorten "" = "" := by decide

/-- The four fresh panels created by pyplot.subplots in plot_density_curves
when the caller does not pass axes. -/
def freshFour : FourAxes :=
  { curves := freshAxes, testcounts := freshAxes, probability := freshAxes,
    rt := freshAxes }

/-- Closed form of plot_density_curves: both plot_vlines calls use the
valid alignment "bottom", so no exception can occur and every branch
reduces to the success path. -/
theorem plot_density_curves_eq (idata : IData) (vl : Option (List (Int × String)))
    (at_ : Option (List (Int × Rat))) (axs : FourAxes) :
    plot_density_curves idata vl at_ axs =
      { axs := {
          curves := { axs.curves with ops := axs.curves.ops ++
            [DrawOp.gpDist (idata.dates.drop 3)
              ((idata.infections.map (fun row => row.map
                (fun v => v * get_scale_factor idata))).map (fun row => row.drop 3)),
             DrawOp.gpDist (idata.dates.drop 3)
              ((idata.test_adjusted_positive.map (fun row => row.map
                (fun v => v * get_scale_factor idata))).map (fun row => row.drop 3)),
             DrawOp.bar idata.observed_positive "positive tests"] ++
            (if truthy vl then
              vlineOps axs.curves.ylim.1 axs.curves.ylim.2 axs.curves.xlim.1
                axs.curves.xlim.2 "bottom" (vl.getD [])
             else []) },
          testcounts := { axs.testcounts with ops := axs.testcounts.ops ++
            [DrawOp.line idata.tests "modeled"] ++
            (match at_ with
             | some a => [DrawOp.bar a "actual"]
             | none => []) ++
            (if truthy vl then
              vlineOps axs.testcounts.ylim.1 axs.testcounts.ylim.2
                axs.testcounts.xlim.1 axs.testcounts.xlim.2 "bottom"
                (blank_labels (vl.getD []))
             else []) },
          probability := { axs.probability with
            ylim := (0, 1)
            ops := axs.probability.ops ++
              [DrawOp.line (idata.dates.zip (prob_series idata.r_t idata.dates.length)) ""] },
          rt := { axs.rt with
            ylim := (0, 5 / 2)
            ops := axs.rt.ops ++ [DrawOp.gpDist idata.dates idata.r_t, DrawOp.hline 1] } },
        err := none, idata_out := idata, vlines_out := vl, actual_out := at_ } := by
  by_cases h : truthy vl = true
  · cases at_ with
    | none =>
      simp only [plot_density_curves, h, if_true,
        plot_vlines_valid _ _ "bottom" (Or.inr rfl), Axes.push]
      simp [List.append_assoc]
    | some a =>
      simp only [plot_density_curves, h, if_true,
        plot_vlines_valid _ _ "bottom" (Or.inr rfl), Axes.push]
      simp [List.append_assoc]
  · cases at_ with
    | none =>
      simp only [plot_density_curves, h, if_false, Axes.push]
      simp [List.append_assoc]
    | some a =>
      simp only [plot_density_curves, h, if_false, Axes.push]
      simp [List.append_assoc]

theorem prob_series_getD (m : List (List Rat)) (n t : Nat) (ht : t < n) :
    (prob_series m n).getD t 0 = prob_above_one m t := by
  simp [prob_series, List.getD_eq_getElem?_getD, List.getElem?_map,
    List.getElem?_range, ht]

theorem prob_above_one_all_gt (m : List (List Rat)) (t : Nat) (hne : m ≠ [])
    (h : ∀ row ∈ m, 1 < row.getD t 0) : prob_above_one m t = 1 := by
  rw [prob_above_one]
  have hc : (sample_column m t).countP (fun v => decide (1 < v)) =
      (sample_column m t).length := by
    rw [List.countP_eq_length]
    intro v hv
    simp only [sample_column, List.mem_map] at hv
    obtain ⟨row, hrow, rfl⟩ := hv
    exact decide_eq_true (h row hrow)
  rw [hc, sample_column, List.length_map]
  apply div_self
  exact Nat.cast_ne_zero.mpr (fun hl => hne (List.length_eq_zero.mp hl))

theorem prob_above_one_none_gt (m : List (List Rat)) (t : Nat)
    (h : ∀ row ∈ m, row.getD t 0 ≤ 1) : prob_above_one m t = 0 := by
  rw [prob_above_one]
  have hc : (sample_column m t).countP (fun v => decide (1 < v)) = 0 := by
    rw [List.countP_eq_zero]
    intro v hv
    simp only [sample_column, List.mem_map] at hv
    obtain ⟨row, hrow, rfl⟩ := hv
    simpa using not_lt.mpr (h row hrow)
  rw [hc]
  simp

/-- C2: the probability panel plots, at each date, exactly the fraction of
posterior draws (all chains and draws flattened) whose r_t value exceeds
1; if every draw exceeds 1 at a date the value is 1, if none does it is 0;
and the y limits of the probability panel are fixed to [0, 1]. -/
theorem c2_probability_panel (idata : IData) (vl : Option (List (Int × String)))
    (at_ : Option (List (Int × Rat))) (axs : FourAxes) (t : Nat)
    (_hrect : ∀ row ∈ idata.r_t, row.length = idata.dates.length)
    (hne : idata.r_t ≠ []) (ht : t < idata.dates.length) :
    (plot_density_curves idata vl at_ axs).axs.probability.ylim = (0, 1) ∧
    DrawOp.line (idata.dates.zip (prob_series idata.r_t idata.dates.length)) "" ∈
      (plot_density_curves idata vl at_ axs).axs.probability.ops ∧
    (prob_series idata.r_t idata.dates.length).getD t 0 =
      (((sample_column idata.r_t t).countP (fun v => decide (1 < v)) : Nat) : Rat) /
        ((idata.r_t.length : Nat) : Rat) ∧
    ((∀ row ∈ idata.r_t, 1 < row.getD t 0) →
      (prob_series idata.r_t idata.dates.length).getD t 0 = 1) ∧
    ((∀ row ∈ idata.r_t, row.getD t 0 ≤ 1) →
      (prob_series idata.r_t idata.dates.length).getD t 0 = 0) := by
  rw [plot_density_curves_eq]
  refine ⟨rfl, ?_, ?_, ?_, ?_⟩
  · exact List.mem_append_right _ (List.mem_singleton.mpr rfl)
  · rw [prob_series_getD _ _ _ ht, prob_above_one]
  · intro hall
    rw [prob_series_getD _ _ _ ht]
    exact prob_above_one_all_gt idata.r_t t hne hall
  · intro hnone
    rw [prob_series_getD _ _ _ ht]
    exact prob_above_one_none_gt idata.r_t t hnone

/-- A concrete inference-data slice for witnesses: two flattened samples
over two dates; at date index 0 every r_t draw exceeds 1. -/
def idata0 : IData :=
  { dates := [100, 101], infections := [], test_adjusted_positive := [],
    r_t := [[2, 0], [3, 2]], observed_positive := [], tests := [],
    scale_factor_val := 1 }

/-- C2 witness: the probability-panel statement evaluated on concrete
inference data at date index 0. -/
theorem c2_witness :
    (plot_density_curves idata0 none none freshFour).axs.probability.ylim = (0, 1) ∧
    DrawOp.line (idata0.dates.zip (prob_series idata0.r_t idata0.dates.length)) "" ∈
      (plot_density_curves idata0 none none freshFour).axs.probability.ops ∧
    (prob_series idata0.r_t idata0.dates.length).getD 0 0 =
      (((sample_column idata0.r_t 0).countP (fun v => decide (1 < v)) : Nat) : Rat) /
        ((idata0.r_t.length : Nat) : Rat) ∧
    ((∀ row ∈ idata0.r_t, 1 < row.getD 0 0) →
      (prob_series idata0.r_t idata0.dates.length).getD 0 0 = 1) ∧
    ((∀ row ∈ idata0.r_t, row.getD 0 0 ≤ 1) →
      (prob_series idata0.r_t idata0.dates.length).getD 0 0 = 0) :=
  c2_probability_panel idata0 none none freshFour 0 (by decide) (by decide) (by decide)

/-- C7: the actual_tests series is optional.  When it is absent the
test-volume panel receives the modeled line and no bar series at all (and
the call completes without error); when it is supplied, both the modeled
line and the actual bars are drawn. -/
theorem c7_actual_tests_optional (idata : IData) (vl : Option (List (Int × String))) :
    ((plot_density_curves idata vl none freshFour).err = none ∧
     DrawOp.line idata.tests "modeled" ∈
       (plot_density_curves idata vl none freshFour).axs.testcounts.ops ∧
     (∀ (pts : List (Int × Rat)) (lab : String),
       DrawOp.bar pts lab ∉
         (plot_density_curves idata vl none freshFour).axs.testcounts.ops)) ∧
    (∀ a : List (Int × Rat),
     (plot_density_curves idata vl (some a) freshFour).err = none ∧
     DrawOp.line idata.tests "modeled" ∈
       (plot_density_curves idata vl (some a) freshFour).axs.testcounts.ops ∧
     DrawOp.bar a "actual" ∈
       (plot_density_curves idata vl (some a) freshFour).axs.testcounts.ops) := by
  constructor
  · rw [plot_density_curves_eq]
    refine ⟨rfl, ?_, ?_⟩
    · apply List.mem_append_left
      apply List.mem_append_left
      simp [freshFour, freshAxes]
    · intro pts lab hmem
      simp only [freshFour, freshAxes, List.nil_append] at hmem
      rcases List.mem_append.mp hmem with hmem | hmem
      · rcases List.mem_append.mp hmem with hmem | hmem
        · simp at hmem
        · simp at hmem
      · split at hmem
        · rcases mem_vlineOps_shape _ _ _ _ _ _ _ hmem with ⟨x, hx⟩ | ⟨x, y, s, v, hx⟩ <;>
            cases hx
        · simp at hmem
  · intro a
    rw [plot_density_curves_eq]
    refine ⟨rfl, ?_, ?_⟩
    · apply List.mem_append_left
      apply List.mem_append_left
      simp [freshFour, freshAxes]
    · apply List.mem_append_left
      apply List.mem_append_right
      simp

/-- C9: the curves panel draws each scaled posterior quantity with its
first 3 time points omitted (both the date axis and every sample row are
sliced from index 3), while every caller-supplied input comes out of the
call unchanged. -/
theorem c9_leading_skip_inputs_unchanged (idata : IData)
    (vl : Option (List (Int × String))) (at_ : Option (List (Int × Rat)))
    (axs : FourAxes) :
    (plot_density_curves idata vl at_ axs).idata_out = idata ∧
    (plot_density_curves idata vl at_ axs).vlines_out = vl ∧
    (plot_density_curves idata vl at_ axs).actual_out = at_ ∧
    ∃ rest, (plot_density_curves idata vl at_ axs).axs.curves.ops =
      axs.curves.ops ++
        [DrawOp.gpDist (idata.dates.drop 3)
          ((idata.infections.map (fun row => row.map
            (fun v => v * get_scale_factor idata))).map (fun row => row.drop 3)),
         DrawOp.gpDist (idata.dates.drop 3)
          ((idata.test_adjusted_positive.map (fun row => row.map
            (fun v => v * get_scale_factor idata))).map (fun row => row.drop 3))] ++
        rest := by
  rw [plot_density_curves_eq]
  refine ⟨rfl, rfl, rfl, ?_⟩
  refine ⟨[DrawOp.bar idata.observed_positive "positive tests"] ++
    (if truthy vl then
      vlineOps axs.curves.ylim.1 axs.curves.ylim.2 axs.curves.xlim.1
        axs.curves.xlim.2 "bottom" (vl.getD [])
     else []), ?_⟩
  simp [List.append_assoc]

/-- C5: the annotation set used for the second component panel keeps every
date of the supplied NamedDates (in order, none added or dropped) and
blanks every label; consequently the second panel receives a marker for
exactly the in-range dates and every text drawn on it by the annotation is
the bare newline (no label text). -/
theorem c5_second_panel_blank (considered_holidays : List (Int × String)) (m : Prophet)
    (forecast : List Int) (axA axB : Axes) (h0 : Int × Rat) (tl : List (Int × Rat))
    (hh : m.history = h0 :: tl) :
    (blank_labels considered_holidays).map Prod.fst =
      considered_holidays.map Prod.fst ∧
    (∀ kv ∈ blank_labels considered_holidays, kv.2 = "") ∧
    ∃ a0 a1, plot_testcount_components m forecast considered_holidays axA axB =
        some ((a0, a1), none) ∧
      a1.ops.filterMap vlineX = axB.ops.filterMap vlineX ++
        ((blank_labels considered_holidays).filter
          (fun p => inXRange axB.xlim.1 axB.xlim.2 p.1)).map Prod.fst ∧
      a1.ops.filterMap textS = axB.ops.filterMap textS ++
        ((blank_labels considered_holidays).filter
          (fun p => inXRange axB.xlim.1 axB.xlim.2 p.1)).map (fun _ => "\n") := by
  refine ⟨?_, ?_, ?_⟩
  · simp [blank_labels]
  · intro kv hkv
    simp only [blank_labels, List.mem_map] at hkv
    obtain ⟨p, -, rfl⟩ := hkv
    rfl
  · rw [plot_testcount_components, hh]
    simp only [List.head?]
    simp only [plot_vlines_valid _ _ "bottom" (Or.inr rfl), Axes.push]
    refine ⟨_, _, rfl, ?_, ?_⟩
    · simp only [List.filterMap_append, vlineOps_filterMap_vlineX]
      simp [vlineX]
    · simp only [List.filterMap_append, vlineOps_filterMap_textS]
      have hmap : ((blank_labels considered_holidays).filter
          (fun p => inXRange axB.xlim.1 axB.xlim.2 p.1)).map
            (fun p => textwrap_shorten p.2 ++ "\n") =
          ((blank_labels considered_holidays).filter
            (fun p => inXRange axB.xlim.1 axB.xlim.2 p.1)).map (fun _ => "\n") := by
        apply List.map_congr_left
        intro p hp
        have hp2 : p.2 = "" := by
          have hm := List.mem_of_mem_filter hp
          simp only [blank_labels, List.mem_map] at hm
          obtain ⟨q, -, hq⟩ := hm
          rw [← hq]
        rw [hp2, textwrap_shorten_empty]
        rfl
      rw [hmap]
      simp [textS]

/-- A concrete Prophet model for witnesses: one training row at day 0. -/
def m0 : Prophet := { history := [((0 : Int), (0 : Rat))] }

/-- C5 witness: the blank-annotation statement evaluated on a concrete
holiday set and panels. -/
theorem c5_witness :
    (blank_labels [((5 : Int), "h")]).map Prod.fst =
      [((5 : Int), "h")].map Prod.fst ∧
    (∀ kv ∈ blank_labels [((5 : Int), "h")], kv.2 = "") ∧
    ∃ a0 a1, plot_testcount_components m0 [] [((5 : Int), "h")] ax0 ax0 =
        some ((a0, a1), none) ∧
      a1.ops.filterMap vlineX = ax0.ops.filterMap vlineX ++
        ((blank_labels [((5 : Int), "h")]).filter
          (fun p => inXRange ax0.xlim.1 ax0.xlim.2 p.1)).map Prod.fst ∧
      a1.ops.filterMap textS = ax0.ops.filterMap textS ++
        ((blank_labels [((5 : Int), "h")]).filter
          (fun p => inXRange ax0.xlim.1 ax0.xlim.2 p.1)).map (fun _ => "\n") :=
  c5_second_panel_blank [((5 : Int), "h")] m0 [] ax0 ax0 (0, 0) [] rfl

/-- C6: plot_testcount_forecast passes to the Prophet rendering exactly the
forecast rows dated on or after the first date of the training history,
sets the visible x lower bound to the fixed floor 2020-03-01, and forces
the y lower bound to zero. -/
theorem c6_forecast_window (result : List (Int × Rat)) (m : Prophet)
    (forecast : List Int) (holidays : List (Int × String)) (ax : Axes)
    (h0 : Int × Rat) (tl : List (Int × Rat)) (hh : m.history = h0 :: tl)
    (hnop : ∀ rows, DrawOp.prophetPlot rows ∉ ax.ops) :
    ∃ a, plot_testcount_forecast result m forecast holidays ax = some (a, none) ∧
      DrawOp.prophetPlot (forecast.filter (fun d => decide (h0.1 ≤ d))) ∈ a.ops ∧
      (∀ rows, DrawOp.prophetPlot rows ∈ a.ops →
        rows = forecast.filter (fun d => decide (h0.1 ≤ d))) ∧
      a.xlim.1 = (floor_date : Rat) ∧
      a.ylim.1 = 0 := by
  rw [plot_testcount_forecast, hh]
  simp only [List.head?]
  simp only [plot_vlines_valid _ _ "bottom" (Or.inr rfl), Axes.push]
  refine ⟨_, rfl, ?_, ?_, rfl, rfl⟩
  · simp
  · intro rows hrows
    simp only [List.append_assoc, List.mem_append, List.mem_singleton] at hrows
    rcases hrows with h | h | h | h | h | h
    · exact absurd h (hnop rows)
    · injection h with h
    · rcases mem_vlineOps_shape _ _ _ _ _ _ _ h with ⟨x, hx⟩ | ⟨x, y, s, v, hx⟩ <;>
        cases hx
    · simp at h
    · simp at h
    · simp at h

/-- C6 witness: evaluated on a concrete model (history starting at day 0),
a forecast table with one row before and one row after that date, and the
concrete panel. -/
theorem c6_witness :
    ∃ a, plot_testcount_forecast [] m0 [(0 : Int), -5] [] ax0 = some (a, none) ∧
      DrawOp.prophetPlot ([(0 : Int), -5].filter
        (fun d => decide (((0 : Int), (0 : Rat)).1 ≤ d))) ∈ a.ops ∧
      (∀ rows, DrawOp.prophetPlot rows ∈ a.ops →
        rows = [(0 : Int), -5].filter (fun d => decide (((0 : Int), (0 : Rat)).1 ≤ d))) ∧
      a.xlim.1 = (floor_date : Rat) ∧
      a.ylim.1 = 0 :=
  c6_forecast_window [] m0 [(0 : Int), -5] [] ax0 (0, 0) [] rfl
    (fun rows => by simp [ax0])

end RTLive
